import Mathlib

/-!
Verification development for the MarketMinder dashboard renderer
(`src/visualization/plotly_dashboard.py`, `PlotlyDashboard.create_forecast_dashboard`).

The Python function is a single pure rendering pass: it converts the result
dictionary into pandas objects, builds a four-panel Plotly figure (traces,
horizontal reference lines, annotations) and writes it to an HTML file whose
absolute path it returns.  We shallowly embed it as a pure Lean function:

* dates are already-chronological `Int` values (the `pd.to_datetime`
  conversion is assumed to succeed, as the spec's precondition demands);
* prices and metrics are `ℚ`; the drawn figure stores values in `ℝ` because
  the volatility panel applies a square root;
* the pandas DataFrame column lookup for the optional `lstm` / `arima`
  columns is modelled by `dfColumn`, which reproduces pandas' behaviour for
  a column built from a list of dicts: a `KeyError` when the key is absent
  from every dict, `None` cells kept as Python `None` only when no cell of
  the column is numeric (object dtype), and coercion of `None` / missing
  cells to `NaN` as soon as one cell is numeric (float64 dtype);
* `np.random.normal(0, s, 1000)` is modelled by an ambient stream
  `rng : Nat → ℚ` of standard-normal draws; sample `k` is `0 + s * rng k`;
* writing the file is modelled by returning a `DashOutput` record holding
  the resolved path and the figure; failure (`KeyError`) is `Except.error`,
  raised before any output exists;
* the input `res` is threaded through to the result so that the absence of
  mutation is an explicit theorem rather than a convention.
-/

namespace MarketMinder

/-- One element of `res['forecast']`: a Python dict.  `lstm` / `arima` model
optional dict entries: `none` = key absent, `some none` = key present with
value `None`, `some (some q)` = numeric value. -/
structure ForecastPoint where
  date : Int
  price : ℚ
  upper : ℚ
  lower : ℚ
  lstm : Option (Option ℚ)
  arima : Option (Option ℚ)
deriving Repr, DecidableEq

/-- `res['risk_metrics']`. -/
structure RiskMetrics where
  volatility : ℚ
  sharpe_ratio : ℚ
  var_95 : ℚ
deriving Repr, DecidableEq

/-- `res['levels']`. -/
structure Levels where
  resistance : List ℚ
  support : List ℚ
deriving Repr, DecidableEq

/-- The results dictionary consumed by `create_forecast_dashboard`.
`historical_data` is the date-indexed price mapping, already in
chronological order. -/
structure ForecastResult where
  ticker : String
  forecast : List ForecastPoint
  historical_data : List (Int × ℚ)
  risk_metrics : RiskMetrics
  levels : Levels
deriving Repr, DecidableEq

/-- A cell of a pandas DataFrame column built from a list of dicts. -/
inductive Cell where
  | nan : Cell
  | null : Cell
  | num : ℚ → Cell
deriving Repr, DecidableEq

/-- Errors the renderer can raise before writing any output.  The only
failure the embedded fragment can produce is a missing-column lookup
(`KeyError`) on the forecast DataFrame. -/
inductive DashError where
  | keyError : String → DashError
deriving Repr, DecidableEq

/-- Column lookup `forecast_df[colName]` for an optional column, modelling
`pd.DataFrame(list_of_dicts)`:

* if the key is absent from every dict the column does not exist and the
  lookup raises `KeyError`;
* otherwise, if any dict holds a numeric value the column has float dtype
  and both `None` values and missing keys are coerced to `NaN`;
* otherwise the column has object dtype: present `None`s stay `None`,
  missing keys become `NaN`. -/
def dfColumn (pts : List ForecastPoint) (get : ForecastPoint → Option (Option ℚ))
    (colName : String) : Except DashError (List Cell) :=
  if pts.all (fun p => (get p).isNone) then .error (.keyError colName)
  else
    let hasNum := pts.any (fun p => ((get p).getD none).isSome)
    .ok (pts.map (fun p =>
      match get p with
      | some (some q) => Cell.num q
      | some none => if hasNum then Cell.nan else Cell.null
      | none => Cell.nan))

/-- The Python test `column.iloc[0] is not None`: only a cell that is the
Python object `None` fails it (`NaN is not None` is true). -/
def cell0NotNone (cells : List Cell) : Bool :=
  match cells.head? with
  | some Cell.null => false
  | _ => true

/-- Value a cell contributes to a drawn trace: `None` and `NaN` are gaps. -/
def cellVal (c : Cell) : Option ℚ :=
  match c with
  | Cell.num q => some q
  | _ => none

/-- `hist_prices.pct_change()`: entry 0 is `NaN`, entry `i ≥ 1` is
`p i / p (i-1) - 1`. -/
def pctReturns (prices : List ℚ) : List ℚ :=
  List.zipWith (fun prev cur => cur / prev - 1) prices prices.tail

/-- The full `pct_change` series including the leading `NaN`. -/
def pctChange (prices : List ℚ) : List (Option ℚ) :=
  match prices with
  | [] => []
  | _ :: _ => none :: (pctReturns prices).map some

/-- Sample variance with `ddof = 1` (the pandas `std` default, squared). -/
def sampleVar (l : List ℚ) : ℚ :=
  let n : ℚ := l.length
  let m : ℚ := l.sum / n
  (l.map (fun x => (x - m) ^ 2)).sum / (n - 1)

/-- `series.rolling(20).std() ^ 2`: at position `i` the window is the (at
most 20) entries ending at `i`; with the default `min_periods = 20` the
result is `NaN` unless the window holds 20 non-`NaN` entries, in which case
it is the sample variance of those entries. -/
def rollingVar20 (l : List (Option ℚ)) : List (Option ℚ) :=
  (List.range l.length).map (fun i =>
    let valid := ((l.take (i + 1)).drop (i + 1 - 20)).filterMap id
    if 20 ≤ valid.length then some (sampleVar valid) else none)

/-- The drawn series of panel 3:
`hist_prices.pct_change().rolling(20).std() * np.sqrt(252)`. -/
noncomputable def rollingVol (prices : List ℚ) : List (Option ℝ) :=
  (rollingVar20 (pctChange prices)).map
    (Option.map (fun v => Real.sqrt (v : ℚ) * Real.sqrt 252))

/-- `str(Path(p).absolute())` on POSIX: an absolute path is returned as is,
a relative one is prefixed with the current working directory. -/
def pathAbsolute (cwd p : String) : String :=
  if p.data.head? = some '/' then p else cwd ++ "/" ++ p

/-- A path is absolute when it starts with the separator. -/
def isAbsolutePath (p : String) : Bool :=
  p.data.head? = some '/'

/-- A trace of the figure.  `xs` holds the horizontal coordinates (dates for
scatter traces, the raw samples for the histogram), `ys` the vertical values
with `none` for a gap (`NaN` / `None`).  `row` / `col` locate the panel. -/
structure Trace where
  name : String
  xs : List ℝ
  ys : List (Option ℝ)
  fill : Option String := none
  isHistogram : Bool := false
  row : Nat
  col : Nat

/-- A horizontal reference line added with `fig.add_hline`. -/
structure HLine where
  y : ℚ
  label : String
  row : Nat
  col : Nat
deriving Repr, DecidableEq

/-- The composed figure: the ordered trace list and the reference lines. -/
structure Figure where
  traces : List Trace
  hlines : List HLine

/-- Panel 1 historical price line (`name="Price History"`). -/
noncomputable def histTrace (res : ForecastResult) : Trace :=
  { name := "Price History"
    xs := res.historical_data.map (fun dp => (dp.1 : ℝ))
    ys := res.historical_data.map (fun dp => some (dp.2 : ℝ))
    row := 1, col := 1 }

/-- Panel 1 ensemble forecast line (`name="Ensemble Core"`). -/
noncomputable def ensembleTrace (res : ForecastResult) : Trace :=
  { name := "Ensemble Core"
    xs := res.forecast.map (fun p => (p.date : ℝ))
    ys := res.forecast.map (fun p => some (p.price : ℝ))
    row := 1, col := 1 }

/-- Panel 1 confidence corridor: dates forward then reversed, upper bounds
then reversed lower bounds, filled to itself (closed polygon). -/
noncomputable def corridorTrace (res : ForecastResult) : Trace :=
  { name := "Confidence Corridor (95%)"
    xs := (res.forecast.map (fun p => p.date)
            ++ (res.forecast.map (fun p => p.date)).reverse).map (fun (d : Int) => (d : ℝ))
    ys := (res.forecast.map (fun p => p.upper)
            ++ (res.forecast.map (fun p => p.lower)).reverse).map (fun (q : ℚ) => some (q : ℝ))
    fill := some "toself"
    row := 1, col := 1 }

/-- Panel 2 LSTM overlay, drawn from the `lstm` column (`name="LSTM Node"`). -/
noncomputable def lstmTrace (res : ForecastResult) (col : List Cell) : Trace :=
  { name := "LSTM Node"
    xs := res.forecast.map (fun p => (p.date : ℝ))
    ys := col.map (fun c => (cellVal c).map (fun q => (q : ℝ)))
    row := 1, col := 2 }

/-- Panel 2 ARIMA overlay, drawn from the `arima` column (`name="ARIMA Node"`). -/
noncomputable def arimaTrace (res : ForecastResult) (col : List Cell) : Trace :=
  { name := "ARIMA Node"
    xs := res.forecast.map (fun p => (p.date : ℝ))
    ys := col.map (fun c => (cellVal c).map (fun q => (q : ℝ)))
    row := 1, col := 2 }

/-- Panel 3 rolling volatility area (`name="20D Realized Vol"`). -/
noncomputable def volTrace (res : ForecastResult) : Trace :=
  { name := "20D Realized Vol"
    xs := res.historical_data.map (fun dp => (dp.1 : ℝ))
    ys := rollingVol (res.historical_data.map (fun dp => dp.2))
    fill := some "tozeroy"
    row := 2, col := 1 }

/-- Panel 4 risk histogram: `np.random.normal(0, volatility*10, 1000)`,
sample `k` being `0 + volatility*10 * rng k` for the ambient stream of
standard-normal draws. -/
noncomputable def histogramTrace (res : ForecastResult) (rng : Nat → ℚ) : Trace :=
  { name := "Probability density"
    xs := (List.range 1000).map (fun k =>
            ((res.risk_metrics.volatility * 10 * rng k : ℚ) : ℝ))
    ys := []
    isHistogram := true
    row := 2, col := 2 }

/-- The figure assembled by the body of `create_forecast_dashboard`, given
the already-extracted optional columns: traces in source order, the LSTM and
ARIMA overlays present exactly when `column.iloc[0] is not None`, then the
resistance and support reference lines. -/
noncomputable def buildFigure (res : ForecastResult) (lstmCol arimaCol : List Cell)
    (rng : Nat → ℚ) : Figure :=
  { traces :=
      [histTrace res, ensembleTrace res, corridorTrace res]
        ++ (if cell0NotNone lstmCol then [lstmTrace res lstmCol] else [])
        ++ (if cell0NotNone arimaCol then [arimaTrace res arimaCol] else [])
        ++ [volTrace res, histogramTrace res rng]
    hlines :=
      res.levels.resistance.map (fun v => { y := v, label := "RES", row := 1, col := 1 })
        ++ res.levels.support.map (fun v => { y := v, label := "SUPP", row := 1, col := 1 }) }

/-- The observable result of a successful call: the HTML file written at the
resolved path, holding the figure. -/
structure DashOutput where
  path : String
  fig : Figure

/-- `PlotlyDashboard.create_forecast_dashboard`.  `cwd` is the process
working directory used by `Path.absolute()`; `rng` the ambient stream of
standard-normal draws consumed by `np.random.normal`.  An empty forecast
list makes `forecast_df['date']` a missing-column lookup; the `lstm` and
`arima` lookups raise in source order before anything is written.  The
result threads the untouched input structure through. -/
noncomputable def create_forecast_dashboard (res : ForecastResult)
    (output_path : String) (cwd : String) (rng : Nat → ℚ) :
    Except DashError (DashOutput × ForecastResult) :=
  if res.forecast.isEmpty then .error (.keyError "date")
  else
    match dfColumn res.forecast (fun p => p.lstm) "lstm" with
    | .error e => .error e
    | .ok lstmCol =>
      match dfColumn res.forecast (fun p => p.arima) "arima" with
      | .error e => .error e
      | .ok arimaCol =>
        .ok ({ path := pathAbsolute cwd output_path
               fig := buildFigure res lstmCol arimaCol rng }, res)

/-! ### Helper lemmas -/

/-- When the key is not absent everywhere, the column lookup succeeds with
the cells described by the pandas dtype rules. -/
theorem dfColumn_ok (pts : List ForecastPoint) (get : ForecastPoint → Option (Option ℚ))
    (colName : String) (h : pts.all (fun p => (get p).isNone) = false) :
    dfColumn pts get colName = .ok (pts.map (fun p =>
      match get p with
      | some (some q) => Cell.num q
      | some none =>
          if pts.any (fun p => ((get p).getD none).isSome) then Cell.nan else Cell.null
      | none => Cell.nan)) := by
  simp [dfColumn, h]

/-- Inversion of a successful call: the forecast was non-empty, both
optional-column lookups succeeded, and the result is the figure built from
them at the resolved path, paired with the untouched input. -/
theorem create_ok_inv {res : ForecastResult} {p cwd : String} {rng : Nat → ℚ}
    {pr : DashOutput × ForecastResult}
    (h : create_forecast_dashboard res p cwd rng = .ok pr) :
    ∃ lc ac, res.forecast.isEmpty = false ∧
      dfColumn res.forecast (fun q => q.lstm) "lstm" = .ok lc ∧
      dfColumn res.forecast (fun q => q.arima) "arima" = .ok ac ∧
      pr = ({ path := pathAbsolute cwd p, fig := buildFigure res lc ac rng }, res) := by
  unfold create_forecast_dashboard at h
  split at h
  · exact absurd h (by simp)
  · next hemp =>
    cases hlc : dfColumn res.forecast (fun q => q.lstm) "lstm" with
    | error e => rw [hlc] at h; exact absurd h (by simp)
    | ok lc =>
      rw [hlc] at h
      cases hac : dfColumn res.forecast (fun q => q.arima) "arima" with
      | error e => rw [hac] at h; exact absurd h (by simp)
      | ok ac =>
        rw [hac] at h
        simp only [Except.ok.injEq] at h
        exact ⟨lc, ac, Bool.not_eq_true _ ▸ eq_false_of_ne_true hemp, rfl, rfl, h.symm⟩

/-! ### Concrete sample inputs used by the witnesses -/

/-- Sample risk metrics (the spec §8 example scenario). -/
def rm0 : RiskMetrics := { volatility := 1/5, sharpe_ratio := 3/2, var_95 := -1/20 }

/-- Sample levels (the spec §8 example scenario). -/
def lv0 : Levels := { resistance := [15], support := [8] }

/-- The first forecast point of the sample result. -/
def okP0 : ForecastPoint :=
  { date := 31, price := 10, upper := 11, lower := 9,
    lstm := some (some 10), arima := some none }

/-- A well-formed sample result: three forecast points with numeric `lstm`
and uniformly-null `arima`, three historical points. -/
def okRes : ForecastResult :=
  { ticker := "ABC"
    forecast :=
      [ okP0
      , { date := 32, price := 11, upper := 12, lower := 10,
          lstm := some (some 11), arima := some none }
      , { date := 33, price := 12, upper := 13, lower := 11,
          lstm := some (some 12), arima := some none } ]
    historical_data := [(1, 10), (2, 11), (3, 12)]
    risk_metrics := rm0
    levels := lv0 }

/-- A fixed stream of standard-normal draws for the witnesses. -/
def rngZero : Nat → ℚ := fun _ => 0

/-- A sample result whose forecast list is empty. -/
def emptyRes : ForecastResult :=
  { ticker := "ABC", forecast := [], historical_data := [(1, 10)],
    risk_metrics := rm0, levels := lv0 }

/-- The `lstm` column extracted from `okRes` (all cells numeric). -/
def okLstmCol : List Cell := [Cell.num 10, Cell.num 11, Cell.num 12]

/-- The `arima` column extracted from `okRes` (object dtype, all `None`). -/
def okArimaCol : List Cell := [Cell.null, Cell.null, Cell.null]

/-- The output of the sample successful call. -/
noncomputable def okOut : DashOutput :=
  { path := pathAbsolute "/work" "out.html"
    fig := buildFigure okRes okLstmCol okArimaCol rngZero }

/-- The sample call succeeds and produces `okOut` without touching `okRes`. -/
theorem create_okRes :
    create_forecast_dashboard okRes "out.html" "/work" rngZero = .ok (okOut, okRes) := by
  have hlc : dfColumn okRes.forecast (fun q => q.lstm) "lstm" = .ok okLstmCol := by
    simp [dfColumn, okRes, okP0, okLstmCol]
  have hac : dfColumn okRes.forecast (fun q => q.arima) "arima" = .ok okArimaCol := by
    simp [dfColumn, okRes, okP0, okArimaCol]
  unfold create_forecast_dashboard
  rw [hlc, hac]
  simp [okRes, okP0, okOut]

/-! ### Claims -/

/-- C10: an empty forecast sequence makes the `date` column lookup on the
empty DataFrame fail: the call returns the missing-column error and writes
no output. -/
theorem empty_forecast_raises (res : ForecastResult) (p cwd : String) (rng : Nat → ℚ)
    (h : res.forecast = []) :
    create_forecast_dashboard res p cwd rng = .error (.keyError "date") := by
  simp [create_forecast_dashboard, h]

/-- C10 witness: the concrete empty-forecast input fails with the `date`
missing-column error. -/
theorem empty_forecast_raises_witness :
    create_forecast_dashboard emptyRes "out.html" "/work" rngZero =
      .error (.keyError "date") :=
  empty_forecast_raises emptyRes "out.html" "/work" rngZero rfl

/-- C9: when the `lstm` key is absent from every forecast point, the column
lookup raises `KeyError "lstm"` (no output); when `lstm` is not uniformly
absent but `arima` is, the `arima` lookup raises `KeyError "arima"`; whereas
uniformly `None`-valued keys skip both overlays cleanly and the call
succeeds. -/
theorem missing_key_raises (res : ForecastResult) (p cwd : String) (rng : Nat → ℚ)
    (hne : res.forecast ≠ []) :
    ((∀ q ∈ res.forecast, q.lstm = none) →
      create_forecast_dashboard res p cwd rng = .error (.keyError "lstm")) ∧
    ((¬ ∀ q ∈ res.forecast, q.lstm = none) → (∀ q ∈ res.forecast, q.arima = none) →
      create_forecast_dashboard res p cwd rng = .error (.keyError "arima")) ∧
    ((∀ q ∈ res.forecast, q.lstm = some none) → (∀ q ∈ res.forecast, q.arima = some none) →
      ∃ pr, create_forecast_dashboard res p cwd rng = .ok pr ∧
        ∀ t ∈ pr.1.fig.traces, t.name ≠ "LSTM Node" ∧ t.name ≠ "ARIMA Node") := by
  have hemp : res.forecast.isEmpty = false := by
    cases hf : res.forecast with
    | nil => exact absurd hf hne
    | cons a l => rfl
  refine ⟨?_, ?_, ?_⟩
  · intro hall
    have h1 : res.forecast.all (fun q => (q.lstm).isNone) = true := by
      simp only [List.all_eq_true]
      intro q hq
      simp [hall q hq]
    simp [create_forecast_dashboard, hemp, dfColumn, h1]
  · intro hnl hall
    have h1 : res.forecast.all (fun q => (q.lstm).isNone) = false := by
      rcases Bool.eq_false_or_eq_true (res.forecast.all fun q => (q.lstm).isNone) with h | h
      · refine absurd (fun q hq => ?_) hnl
        have := List.all_eq_true.mp h q hq
        simpa [Option.isNone_iff_eq_none] using this
      · exact h
    have h2 : res.forecast.all (fun q => (q.arima).isNone) = true := by
      simp only [List.all_eq_true]
      intro q hq
      simp [hall q hq]
    rw [create_forecast_dashboard, if_neg (by simp [hemp]),
      dfColumn_ok res.forecast (fun q => q.lstm) "lstm" h1]
    simp [dfColumn, h2]
  · intro hln han
    obtain ⟨q0, f', hf⟩ : ∃ q0 f', res.forecast = q0 :: f' := by
      cases hf : res.forecast with
      | nil => exact absurd hf hne
      | cons a l => exact ⟨a, l, rfl⟩
    have hq0 : q0.lstm = some none := hln q0 (by rw [hf]; exact List.mem_cons_self _ _)
    have ha0 : q0.arima = some none := han q0 (by rw [hf]; exact List.mem_cons_self _ _)
    have hAllL : res.forecast.all (fun q => (q.lstm).isNone) = false := by
      rw [hf]; simp [hq0]
    have hAllA : res.forecast.all (fun q => (q.arima).isNone) = false := by
      rw [hf]; simp [ha0]
    have hNumL : res.forecast.any (fun q => (((q.lstm).getD none).isSome)) = false := by
      simp only [List.any_eq_false]
      intro q hq
      simp [hln q hq]
    have hNumA : res.forecast.any (fun q => (((q.arima).getD none).isSome)) = false := by
      simp only [List.any_eq_false]
      intro q hq
      simp [han q hq]
    have hlc := dfColumn_ok res.forecast (fun q => q.lstm) "lstm" hAllL
    simp only [hNumL, if_false, Bool.false_eq_true] at hlc
    have hac := dfColumn_ok res.forecast (fun q => q.arima) "arima" hAllA
    simp only [hNumA, if_false, Bool.false_eq_true] at hac
    have hc0l : cell0NotNone (res.forecast.map (fun p =>
        match p.lstm with
        | some (some q) => Cell.num q
        | some none => Cell.null
        | none => Cell.nan)) = false := by
      rw [hf]
      simp [cell0NotNone, hq0]
    have hc0a : cell0NotNone (res.forecast.map (fun p =>
        match p.arima with
        | some (some q) => Cell.num q
        | some none => Cell.null
        | none => Cell.nan)) = false := by
      rw [hf]
      simp [cell0NotNone, ha0]
    refine ⟨({ path := pathAbsolute cwd p
               fig := buildFigure res
                 (res.forecast.map (fun r =>
                   match r.lstm with
                   | some (some q) => Cell.num q
                   | some none => Cell.null
                   | none => Cell.nan))
                 (res.forecast.map (fun r =>
                   match r.arima with
                   | some (some q) => Cell.num q
                   | some none => Cell.null
                   | none => Cell.nan)) rng }, res), ?_, ?_⟩
    · rw [create_forecast_dashboard, if_neg (by simp [hemp]), hlc, hac]
    · intro t ht
      simp only [buildFigure, hc0l, hc0a, if_false, Bool.false_eq_true,
        List.append_nil, List.nil_append, List.mem_append, List.mem_cons,
        List.mem_singleton, List.not_mem_nil, or_false] at ht
      rcases ht with ((h | h | h) | h | h) <;> subst h <;>
        exact ⟨by simp [histTrace, ensembleTrace, corridorTrace, volTrace, histogramTrace],
               by simp [histTrace, ensembleTrace, corridorTrace, volTrace, histogramTrace]⟩

/-- C7: the renderer never mutates the input results structure: the final
state of `res` after any call (successful or not) is the initial one. -/
theorem no_input_mutation (res : ForecastResult) (p cwd : String) (rng : Nat → ℚ) :
    (create_forecast_dashboard res p cwd rng).map (fun pr => pr.2) =
    (create_forecast_dashboard res p cwd rng).map (fun _ => res) := by
  cases hc : create_forecast_dashboard res p cwd rng with
  | error e => rfl
  | ok pr =>
    obtain ⟨lc, ac, _, _, _, hpr⟩ := create_ok_inv hc
    subst hpr
    rfl

/-- C4: on every call that renders, the number of horizontal reference
lines equals the number of resistance levels plus the number of support
levels, including zero when both are empty. -/
theorem reference_line_count (res : ForecastResult) (p cwd : String) (rng : Nat → ℚ) :
    (create_forecast_dashboard res p cwd rng).map (fun pr => pr.1.fig.hlines.length) =
    (create_forecast_dashboard res p cwd rng).map
      (fun _ => res.levels.resistance.length + res.levels.support.length) := by
  cases hc : create_forecast_dashboard res p cwd rng with
  | error e => rfl
  | ok pr =>
    obtain ⟨lc, ac, _, _, _, hpr⟩ := create_ok_inv hc
    subst hpr
    simp [Except.map, buildFigure]

/-- Resolving any path against an absolute working directory yields an
absolute path. -/
theorem isAbsolutePath_pathAbsolute (cwd p : String) (hcwd : isAbsolutePath cwd = true) :
    isAbsolutePath (pathAbsolute cwd p) = true := by
  unfold pathAbsolute
  split
  · next hp => simpa [isAbsolutePath] using hp
  · have hcwd' : cwd.data.head? = some '/' := by simpa [isAbsolutePath] using hcwd
    obtain ⟨t, ht⟩ : ∃ t, cwd.data = '/' :: t := by
      cases hd : cwd.data with
      | nil => rw [hd] at hcwd'; cases hcwd'
      | cons a l =>
        rw [hd] at hcwd'
        simp only [List.head?_cons, Option.some.injEq] at hcwd'
        exact ⟨l, by rw [hcwd']⟩
    simp [isAbsolutePath, String.data_append, ht]

/-- C5: whenever the call succeeds, the returned path is absolute (the
working directory of a process being itself absolute). -/
theorem absolute_path_returned (res : ForecastResult) (p cwd : String) (rng : Nat → ℚ)
    (hcwd : isAbsolutePath cwd = true) :
    (create_forecast_dashboard res p cwd rng).map (fun pr => isAbsolutePath pr.1.path) =
    (create_forecast_dashboard res p cwd rng).map (fun _ => true) := by
  cases hc : create_forecast_dashboard res p cwd rng with
  | error e => rfl
  | ok pr =>
    obtain ⟨lc, ac, _, _, _, hpr⟩ := create_ok_inv hc
    subst hpr
    simp [Except.map]
    exact isAbsolutePath_pathAbsolute cwd p hcwd

/-- C5 witness: a concrete successful call from the absolute working
directory `/work` with a relative output path returns an absolute path. -/
theorem absolute_path_returned_witness :
    (create_forecast_dashboard okRes "out.html" "/work" rngZero).map
      (fun pr => isAbsolutePath pr.1.path) =
    (create_forecast_dashboard okRes "out.html" "/work" rngZero).map (fun _ => true) :=
  absolute_path_returned okRes "out.html" "/work" rngZero rfl

/-- A trace named "LSTM Node" is in the figure exactly when the first-cell
presence test on the `lstm` column passed. -/
theorem lstm_name_mem (res : ForecastResult) (lc ac : List Cell) (rng : Nat → ℚ) :
    (∃ t ∈ (buildFigure res lc ac rng).traces, t.name = "LSTM Node") ↔
      cell0NotNone lc = true := by
  by_cases hl : cell0NotNone lc <;> by_cases ha : cell0NotNone ac <;>
    simp [buildFigure, hl, ha, histTrace, ensembleTrace, corridorTrace, lstmTrace,
      arimaTrace, volTrace, histogramTrace]

/-- A trace named "ARIMA Node" is in the figure exactly when the first-cell
presence test on the `arima` column passed. -/
theorem arima_name_mem (res : ForecastResult) (lc ac : List Cell) (rng : Nat → ℚ) :
    (∃ t ∈ (buildFigure res lc ac rng).traces, t.name = "ARIMA Node") ↔
      cell0NotNone ac = true := by
  by_cases hl : cell0NotNone lc <;> by_cases ha : cell0NotNone ac <;>
    simp [buildFigure, hl, ha, histTrace, ensembleTrace, corridorTrace, lstmTrace,
      arimaTrace, volTrace, histogramTrace]

/-- C1: for a forecast of N points, the confidence-corridor trace sits at
index 2 of the figure (third trace of panel 1), is a closed (self-filled)
polygon, and its x/y sequences are the N dates with upper bounds in forward
order followed by the N dates with lower bounds reversed, 2·N vertices in
all. -/
theorem corridor_polygon (res : ForecastResult) (p cwd : String) (rng : Nat → ℚ)
    (pr : DashOutput × ForecastResult)
    (h : create_forecast_dashboard res p cwd rng = .ok pr) :
    pr.1.fig.traces[2]? = some (corridorTrace res) ∧
    (corridorTrace res).xs =
      ((res.forecast.map (fun q => q.date)) ++
        (res.forecast.map (fun q => q.date)).reverse).map (fun (d : Int) => (d : ℝ)) ∧
    (corridorTrace res).ys =
      ((res.forecast.map (fun q => q.upper)) ++
        (res.forecast.map (fun q => q.lower)).reverse).map (fun (v : ℚ) => some (v : ℝ)) ∧
    (corridorTrace res).xs.length = 2 * res.forecast.length ∧
    (corridorTrace res).ys.length = 2 * res.forecast.length ∧
    (corridorTrace res).fill = some "toself" ∧
    (corridorTrace res).row = 1 ∧ (corridorTrace res).col = 1 := by
  obtain ⟨lc, ac, _, _, _, hpr⟩ := create_ok_inv h
  subst hpr
  refine ⟨by simp [buildFigure], by simp [corridorTrace], by simp [corridorTrace], ?_, ?_,
    rfl, rfl, rfl⟩
  · simp only [corridorTrace, List.length_map, List.length_append, List.length_reverse]
    omega
  · simp only [corridorTrace, List.length_map, List.length_append, List.length_reverse]
    omega

/-- C1 witness: the corridor trace of the concrete successful call, with
its 2·3 = 6 vertices. -/
theorem corridor_polygon_witness :
    (okOut, okRes).1.fig.traces[2]? = some (corridorTrace okRes) ∧
    (corridorTrace okRes).xs.length = 2 * okRes.forecast.length ∧
    (corridorTrace okRes).fill = some "toself" :=
  ⟨(corridor_polygon okRes "out.html" "/work" rngZero (okOut, okRes) create_okRes).1,
   (corridor_polygon okRes "out.html" "/work" rngZero (okOut, okRes) create_okRes).2.2.2.1,
   (corridor_polygon okRes "out.html" "/work" rngZero (okOut, okRes) create_okRes).2.2.2.2.2.1⟩

/-- C2: for well-formed inputs (the optional per-model series uniformly
numeric, uniformly null, or uniformly absent, as the spec's data model
requires), a successful call includes the LSTM overlay trace exactly when
the `lstm` value of the forecast point at index 0 is present (non-null),
and independently the ARIMA overlay exactly when the `arima` value at
index 0 is present. -/
theorem overlay_first_point (res : ForecastResult) (p cwd : String) (rng : Nat → ℚ)
    (pr : DashOutput × ForecastResult) (p0 : ForecastPoint)
    (h : create_forecast_dashboard res p cwd rng = .ok pr)
    (h0 : res.forecast.head? = some p0)
    (hul : (∀ q ∈ res.forecast, ∃ v, q.lstm = some (some v)) ∨
           (∀ q ∈ res.forecast, q.lstm = some none) ∨
           (∀ q ∈ res.forecast, q.lstm = none))
    (hua : (∀ q ∈ res.forecast, ∃ v, q.arima = some (some v)) ∨
           (∀ q ∈ res.forecast, q.arima = some none) ∨
           (∀ q ∈ res.forecast, q.arima = none)) :
    ((∃ t ∈ pr.1.fig.traces, t.name = "LSTM Node") ↔ (∃ v, p0.lstm = some (some v))) ∧
    ((∃ t ∈ pr.1.fig.traces, t.name = "ARIMA Node") ↔ (∃ v, p0.arima = some (some v))) := by
  obtain ⟨lc, ac, hemp, hlc, hac, hpr⟩ := create_ok_inv h
  subst hpr
  obtain ⟨f', hf⟩ : ∃ f', res.forecast = p0 :: f' := by
    cases hfc : res.forecast with
    | nil => rw [hfc] at h0; cases h0
    | cons a l =>
      rw [hfc] at h0
      simp only [List.head?_cons, Option.some.injEq] at h0
      exact ⟨l, by rw [h0]⟩
  have hp0 : p0 ∈ res.forecast := by rw [hf]; exact List.mem_cons_self _ _
  constructor
  · rw [lstm_name_mem]
    rcases hul with hcase | hcase | hcase
    · obtain ⟨v0, hv0⟩ := hcase p0 hp0
      have hAll : res.forecast.all (fun q => (q.lstm).isNone) = false := by
        rw [hf]; simp [hv0]
      have hform := dfColumn_ok res.forecast (fun q => q.lstm) "lstm" hAll
      rw [hlc] at hform
      simp only [Except.ok.injEq] at hform
      subst hform
      rw [hf]
      simp [cell0NotNone, hv0]
    · have hAll : res.forecast.all (fun q => (q.lstm).isNone) = false := by
        rw [hf]; simp [hcase p0 hp0]
      have hNum : res.forecast.any (fun q => (((q.lstm).getD none).isSome)) = false := by
        simp only [List.any_eq_false]
        intro q hq
        simp [hcase q hq]
      have hform := dfColumn_ok res.forecast (fun q => q.lstm) "lstm" hAll
      rw [hlc] at hform
      simp only [Except.ok.injEq, hNum, Bool.false_eq_true, if_false] at hform
      subst hform
      rw [hf]
      simp [cell0NotNone, hcase p0 hp0]
    · exfalso
      have hAll : res.forecast.all (fun q => (q.lstm).isNone) = true := by
        simp only [List.all_eq_true]
        intro q hq
        simp [hcase q hq]
      rw [dfColumn, if_pos hAll] at hlc
      cases hlc
  · rw [arima_name_mem]
    rcases hua with hcase | hcase | hcase
    · obtain ⟨v0, hv0⟩ := hcase p0 hp0
      have hAll : res.forecast.all (fun q => (q.arima).isNone) = false := by
        rw [hf]; simp [hv0]
      have hform := dfColumn_ok res.forecast (fun q => q.arima) "arima" hAll
      rw [hac] at hform
      simp only [Except.ok.injEq] at hform
      subst hform
      rw [hf]
      simp [cell0NotNone, hv0]
    · have hAll : res.forecast.all (fun q => (q.arima).isNone) = false := by
        rw [hf]; simp [hcase p0 hp0]
      have hNum : res.forecast.any (fun q => (((q.arima).getD none).isSome)) = false := by
        simp only [List.any_eq_false]
        intro q hq
        simp [hcase q hq]
      have hform := dfColumn_ok res.forecast (fun q => q.arima) "arima" hAll
      rw [hac] at hform
      simp only [Except.ok.injEq, hNum, Bool.false_eq_true, if_false] at hform
      subst hform
      rw [hf]
      simp [cell0NotNone, hcase p0 hp0]
    · exfalso
      have hAll : res.forecast.all (fun q => (q.arima).isNone) = true := by
        simp only [List.all_eq_true]
        intro q hq
        simp [hcase q hq]
      rw [dfColumn, if_pos hAll] at hac
      cases hac

/-- C2 witness: in the concrete successful call the LSTM overlay is
included (first point numeric) and the ARIMA overlay is excluded (first
point null). -/
theorem overlay_first_point_witness :
    ((∃ t ∈ (okOut, okRes).1.fig.traces, t.name = "LSTM Node") ↔
      (∃ v, okP0.lstm = some (some v))) ∧
    ((∃ t ∈ (okOut, okRes).1.fig.traces, t.name = "ARIMA Node") ↔
      (∃ v, okP0.arima = some (some v))) :=
  overlay_first_point okRes "out.html" "/work" rngZero (okOut, okRes) okP0 create_okRes rfl
    (Or.inl (by
      intro q hq
      simp only [okRes, okP0, List.mem_cons, List.not_mem_nil, or_false] at hq
      rcases hq with h | h | h <;> subst h <;> exact ⟨_, rfl⟩))
    (Or.inr (Or.inl (by
      intro q hq
      simp only [okRes, okP0, List.mem_cons, List.not_mem_nil, or_false] at hq
      rcases hq with h | h | h <;> subst h <;> rfl)))

/-- A sample result whose forecast points all lack the `lstm` key. -/
def absentRes : ForecastResult :=
  { ticker := "ABC"
    forecast :=
      [ { date := 31, price := 10, upper := 11, lower := 9,
          lstm := none, arima := some (some 10) } ]
    historical_data := [(1, 10)]
    risk_metrics := rm0
    levels := lv0 }

/-- C9 witness: with the `lstm` key absent from every forecast point the
call fails with the `lstm` missing-column error. -/
theorem missing_key_raises_witness :
    create_forecast_dashboard absentRes "out.html" "/work" rngZero =
      .error (.keyError "lstm") :=
  (missing_key_raises absentRes "out.html" "/work" rngZero (by simp [absentRes])).1
    (by intro q hq; simp only [absentRes] at hq; simp only [List.mem_singleton] at hq;
        rw [hq])

/-- Membership in the figure's trace list, case-free. -/
theorem mem_buildFigure_traces {res : ForecastResult} {lc ac : List Cell}
    {rng : Nat → ℚ} {t : Trace} :
    t ∈ (buildFigure res lc ac rng).traces ↔
      t = histTrace res ∨ t = ensembleTrace res ∨ t = corridorTrace res ∨
      (cell0NotNone lc = true ∧ t = lstmTrace res lc) ∨
      (cell0NotNone ac = true ∧ t = arimaTrace res ac) ∨
      t = volTrace res ∨ t = histogramTrace res rng := by
  by_cases hl : cell0NotNone lc <;> by_cases ha : cell0NotNone ac <;>
    simp [buildFigure, hl, ha]

/-- C8: a successful call always carries the risk histogram as the unique
trace of panel 4: exactly 1000 samples, sample `k` being the `k`-th
standard-normal draw scaled by `risk_metrics.volatility * 10` (mean 0). -/
theorem risk_histogram (res : ForecastResult) (p cwd : String) (rng : Nat → ℚ)
    (pr : DashOutput × ForecastResult)
    (h : create_forecast_dashboard res p cwd rng = .ok pr) :
    histogramTrace res rng ∈ pr.1.fig.traces ∧
    (∀ t ∈ pr.1.fig.traces, t.row = 2 → t.col = 2 → t = histogramTrace res rng) ∧
    (histogramTrace res rng).xs =
      (List.range 1000).map (fun k =>
        ((res.risk_metrics.volatility * 10 * rng k : ℚ) : ℝ)) ∧
    (histogramTrace res rng).xs.length = 1000 ∧
    (histogramTrace res rng).isHistogram = true := by
  obtain ⟨lc, ac, _, _, _, hpr⟩ := create_ok_inv h
  subst hpr
  refine ⟨?_, ?_, by simp [histogramTrace], by simp [histogramTrace], rfl⟩
  · simp [buildFigure]
  · intro t ht hr hc2
    rw [mem_buildFigure_traces] at ht
    rcases ht with h | h | h | ⟨_, h⟩ | ⟨_, h⟩ | h | h <;> subst h <;>
      first
        | rfl
        | (exfalso;
           simp [histTrace, ensembleTrace, corridorTrace, lstmTrace, arimaTrace,
             volTrace] at hr hc2)

/-- C8 witness: the histogram trace of the concrete successful call holds
exactly 1000 scaled samples. -/
theorem risk_histogram_witness :
    histogramTrace okRes rngZero ∈ (okOut, okRes).1.fig.traces ∧
    (histogramTrace okRes rngZero).xs.length = 1000 :=
  ⟨(risk_histogram okRes "out.html" "/work" rngZero (okOut, okRes) create_okRes).1,
   (risk_histogram okRes "out.html" "/work" rngZero (okOut, okRes) create_okRes).2.2.2.1⟩

/-- A one-point price series yields a volatility series with a single
undefined entry. -/
theorem rollingVol_singleton (x : ℚ) : rollingVol [x] = [none] := by
  have h1 : pctChange [x] = [none] := by simp [pctChange, pctReturns]
  simp [rollingVol, h1, rollingVar20, List.range_succ]

/-- C6: with a single historical price point (too few for the 20-period
window) the call still succeeds, and the volatility trace of panel 3 is
drawn with every point undefined. -/
theorem single_history_safe (res : ForecastResult) (p cwd : String) (rng : Nat → ℚ)
    (hh : res.historical_data.length = 1)
    (hne : res.forecast ≠ [])
    (hl : ¬ ∀ q ∈ res.forecast, q.lstm = none)
    (ha : ¬ ∀ q ∈ res.forecast, q.arima = none) :
    (∃ pr, create_forecast_dashboard res p cwd rng = .ok pr) ∧
    (∀ pr, create_forecast_dashboard res p cwd rng = .ok pr →
      volTrace res ∈ pr.1.fig.traces ∧ ∀ y ∈ (volTrace res).ys, y = none) := by
  have hemp : res.forecast.isEmpty = false := by
    cases hfc : res.forecast with
    | nil => exact absurd hfc hne
    | cons a l => rfl
  have hAllL : res.forecast.all (fun q => (q.lstm).isNone) = false := by
    rcases Bool.eq_false_or_eq_true (res.forecast.all fun q => (q.lstm).isNone) with h | h
    · refine absurd (fun q hq => ?_) hl
      have := List.all_eq_true.mp h q hq
      simpa [Option.isNone_iff_eq_none] using this
    · exact h
  have hAllA : res.forecast.all (fun q => (q.arima).isNone) = false := by
    rcases Bool.eq_false_or_eq_true (res.forecast.all fun q => (q.arima).isNone) with h | h
    · refine absurd (fun q hq => ?_) ha
      have := List.all_eq_true.mp h q hq
      simpa [Option.isNone_iff_eq_none] using this
    · exact h
  constructor
  · cases hc : create_forecast_dashboard res p cwd rng with
    | ok pr => exact ⟨pr, rfl⟩
    | error e =>
      exfalso
      rw [create_forecast_dashboard, if_neg (by simp [hemp]),
        dfColumn_ok res.forecast (fun q => q.lstm) "lstm" hAllL,
        dfColumn_ok res.forecast (fun q => q.arima) "arima" hAllA] at hc
      cases hc
  · intro pr hok
    obtain ⟨lc, ac, _, _, _, hpr⟩ := create_ok_inv hok
    subst hpr
    constructor
    · simp [buildFigure]
    · obtain ⟨d, q, hsingle⟩ : ∃ d q, res.historical_data = [(d, q)] := by
        cases hd : res.historical_data with
        | nil => rw [hd] at hh; cases hh
        | cons a l =>
          have hl0 : l = [] := by
            rw [hd] at hh
            simp only [List.length_cons] at hh
            exact List.length_eq_zero.mp (by omega)
          exact ⟨a.1, a.2, by rw [hl0]⟩
      intro y hy
      rw [volTrace] at hy
      simp only [hsingle] at hy
      rw [show ([(d, q)].map (fun dp => dp.2)) = [q] from rfl, rollingVol_singleton] at hy
      simpa using hy

/-- A sample result with a single historical point. -/
def oneHistRes : ForecastResult :=
  { ticker := "ABC", forecast := [okP0], historical_data := [(1, 10)],
    risk_metrics := rm0, levels := lv0 }

/-- C6 witness: the single-historical-point call succeeds and the drawn
volatility series has no defined point. -/
theorem single_history_safe_witness :
    (∃ pr, create_forecast_dashboard oneHistRes "out.html" "/work" rngZero = .ok pr) ∧
    (∀ pr, create_forecast_dashboard oneHistRes "out.html" "/work" rngZero = .ok pr →
      volTrace oneHistRes ∈ pr.1.fig.traces ∧ ∀ y ∈ (volTrace oneHistRes).ys, y = none) :=
  single_history_safe oneHistRes "out.html" "/work" rngZero rfl
    (by simp [oneHistRes]) (by simp [oneHistRes, okP0]) (by simp [oneHistRes, okP0])

/-! ### The rolling-volatility window pattern (C3) -/

/-- Stripping the `some` wrappers recovers the list. -/
theorem filterMap_id_map_some (w : List ℚ) : (w.map some).filterMap id = w := by
  simp

/-- `pct_change` has one return per consecutive pair. -/
theorem pctReturns_length (prices : List ℚ) :
    (pctReturns prices).length = prices.length - 1 := by
  simp [pctReturns]

/-- The `pct_change` series has one entry per price. -/
theorem pctChange_length (prices : List ℚ) :
    (pctChange prices).length = prices.length := by
  cases prices with
  | nil => rfl
  | cons a l => simp [pctChange, pctReturns_length]

/-- Entry `i` of the rolling variance series, for `i` in range. -/
theorem rollingVar20_getElem (l : List (Option ℚ)) (i : Nat) (hi : i < l.length) :
    (rollingVar20 l)[i]? = some (
      if 20 ≤ (((l.take (i + 1)).drop (i + 1 - 20)).filterMap id).length
      then some (sampleVar (((l.take (i + 1)).drop (i + 1 - 20)).filterMap id))
      else none) := by
  simp [rollingVar20, List.getElem?_map, List.getElem?_range, hi]

/-- C3 (amended): the volatility series drawn in panel 3 has one point per
historical price; its first `min 20 L` points are undefined (index 0 of
`pct_change` is `NaN`, so the first full 20-return window ends only at
0-based position 20), and every 0-based point `i ≥ 20` is defined and
equals the sample standard deviation of the 20 percentage returns ending at
`i`, multiplied by `√252`. -/
theorem rollingVol_window_pattern (prices : List ℚ) :
    (rollingVol prices).length = prices.length ∧
    (∀ i, i < 20 → i < prices.length → (rollingVol prices)[i]? = some none) ∧
    (∀ i, 20 ≤ i → i < prices.length → (rollingVol prices)[i]? =
      some (some (Real.sqrt (sampleVar (((pctReturns prices).drop (i - 20)).take 20)) *
        Real.sqrt 252))) := by
  refine ⟨by simp [rollingVol, rollingVar20, pctChange_length], ?_, ?_⟩
  · intro i h20 hil
    obtain ⟨a, rest, rfl⟩ : ∃ a rest, prices = a :: rest := by
      cases prices with
      | nil => cases hil
      | cons a r => exact ⟨a, r, rfl⟩
    have hi : i < (pctChange (a :: rest)).length := by rw [pctChange_length]; exact hil
    have hwin : (((pctChange (a :: rest)).take (i + 1)).drop (i + 1 - 20)).filterMap id =
        (pctReturns (a :: rest)).take i := by
      have h0 : i + 1 - 20 = 0 := by omega
      rw [h0, List.drop_zero]
      show (((none :: (pctReturns (a :: rest)).map some)).take (i + 1)).filterMap id = _
      rw [List.take_succ_cons,
        show List.filterMap id (none :: ((pctReturns (a :: rest)).map some).take i) =
          List.filterMap id (((pctReturns (a :: rest)).map some).take i) from by simp,
        ← List.map_take, filterMap_id_map_some]
    have hlen : ¬ 20 ≤ ((pctReturns (a :: rest)).take i).length := by
      have := List.length_take_le i (pctReturns (a :: rest))
      omega
    rw [rollingVol, List.getElem?_map, rollingVar20_getElem _ i hi, hwin, if_neg hlen]
    rfl
  · intro i h20 hil
    obtain ⟨a, rest, rfl⟩ : ∃ a rest, prices = a :: rest := by
      cases prices with
      | nil => cases hil
      | cons a r => exact ⟨a, r, rfl⟩
    have hi : i < (pctChange (a :: rest)).length := by rw [pctChange_length]; exact hil
    have hwin : (((pctChange (a :: rest)).take (i + 1)).drop (i + 1 - 20)).filterMap id =
        ((pctReturns (a :: rest)).drop (i - 20)).take 20 := by
      have h0 : i + 1 - 20 = (i - 20) + 1 := by omega
      have h1 : i - (i - 20) = 20 := by omega
      rw [h0]
      show ((((none :: (pctReturns (a :: rest)).map some)).take (i + 1)).drop
        ((i - 20) + 1)).filterMap id = _
      rw [List.take_succ_cons, List.drop_succ_cons, ← List.map_take, ← List.map_drop,
        List.drop_take, h1, filterMap_id_map_some]
    have hlen : 20 ≤ (((pctReturns (a :: rest)).drop (i - 20)).take 20).length := by
      have h1 : (pctReturns (a :: rest)).length = rest.length := by
        rw [pctReturns_length]
        simp
      simp only [List.length_take, List.length_drop, h1]
      simp only [List.length_cons] at hil
      omega
    rw [rollingVol, List.getElem?_map, rollingVar20_getElem _ i hi, hwin, if_pos hlen]
    rfl

/-- C3 counterexample: a 20-point historical series (L = 20 ≥ 20), for
which the claim asserts that 1-based point 20 (0-based index 19) is
defined; the code leaves it undefined, because the window at index 19
still contains the leading `NaN` of `pct_change`. -/
theorem rollingVol_first19_counterexample :
    (List.replicate 20 (1 : ℚ)).length = 20 ∧
    (rollingVol (List.replicate 20 (1 : ℚ)))[19]? = some none := by
  constructor
  · rfl
  · have h : (rollingVar20 (pctChange (List.replicate 20 (1 : ℚ))))[19]? = some none := by
      decide
    rw [rollingVol, List.getElem?_map, h]
    rfl

/-- C3 witness: on a concrete 25-point series, point 5 is undefined and
point 20 (0-based) is the annualized standard deviation of the first 20
returns. -/
theorem rollingVol_window_pattern_witness :
    (rollingVol (List.replicate 25 (1 : ℚ))).length = (List.replicate 25 (1 : ℚ)).length ∧
    (rollingVol (List.replicate 25 (1 : ℚ)))[5]? = some none ∧
    (rollingVol (List.replicate 25 (1 : ℚ)))[20]? =
      some (some (Real.sqrt (sampleVar
        (((pctReturns (List.replicate 25 (1 : ℚ))).drop (20 - 20)).take 20)) *
        Real.sqrt 252)) :=
  ⟨(rollingVol_window_pattern (List.replicate 25 (1 : ℚ))).1,
   (rollingVol_window_pattern (List.replicate 25 (1 : ℚ))).2.1 5 (by decide) (by decide),
   (rollingVol_window_pattern (List.replicate 25 (1 : ℚ))).2.2 20 (by decide) (by decide)⟩

end MarketMinder
